import Mathlib

/-!
Shallow embedding of the METAR decoder in `app.py` (Flask METAR translator).

Conventions of the embedding:
* a Python token (an element of `raw_metar.split()`) is a `List Char`, called `Token`;
* decoded phrases are Lean `String`s;
* Python code that can raise is modelled in the `Except PyErr` monad; pure code is a
  plain function;
* Python floats are modelled exactly, as unreduced fractions (`PyFloat`); each place
  where double rounding could in principle diverge from the exact value carries a
  comment justifying why it cannot for the integer ranges the program feeds in;
* the regular expressions of `app.py` are compiled by hand into token parsers.  All of
  them are written `^...$` and used with `re.match`; in Python `$` also matches just
  before a single trailing newline, which the combinator `matchWithDollar` reproduces.
-/

/-- Exceptions of the modelled Python fragment. -/
inductive PyErr where
  | valueError
  | zeroDivisionError
deriving DecidableEq, Repr

/-- A whitespace-delimited METAR token, one element of Python's `raw_metar.split()`. -/
abbrev Token := List Char

/-- Value of a nonempty string of ASCII digits, as computed by Python `int` on the
digit groups captured by the regexes of `app.py` (which are guaranteed nonempty and
all digits, so no sign or error handling is needed here). -/
def natOfDigits (ds : List Char) : Nat :=
  ds.foldl (fun a c => a * 10 + (c.toNat - 48)) 0

/-- Characters on which Python `str.split()` (and `str.strip()`) splits, restricted to
the ASCII range; METAR reports are ASCII per the spec's data model. -/
def isPySpace (c : Char) : Bool :=
  c = ' ' || c = '\t' || c = '\n' || c = '\r' || c = '\x0b' || c = '\x0c'

/-- Characters matched by the regex class `[A-Za-z]` of `ICAO_PATTERN`. -/
def isAsciiAlpha (c : Char) : Bool :=
  ('A' ≤ c && c ≤ 'Z') || ('a' ≤ c && c ≤ 'z')

/-- Accumulator loop for `pySplit`; `acc` holds the current token reversed. -/
def pySplitAux : List Char → List Char → List Token
  | [], acc => if acc.isEmpty then [] else [acc.reverse]
  | c :: cs, acc =>
    if isPySpace c then
      if acc.isEmpty then pySplitAux cs [] else acc.reverse :: pySplitAux cs []
    else pySplitAux cs (c :: acc)

/-- Python `str.split()` with no argument: split on runs of whitespace, discarding
empty pieces (`app.py` line 90, `raw_metar.split()`). -/
def pySplit (s : List Char) : List Token := pySplitAux s []

/-- Python `str.split(sep)` for a one-character separator: splits at every occurrence
of `sep`, keeping empty pieces, always returning at least one piece. -/
def splitOnChar (sep : Char) : List Char → List (List Char)
  | [] => [[]]
  | c :: cs =>
    if c = sep then [] :: splitOnChar sep cs
    else
      match splitOnChar sep cs with
      | piece :: pieces => (c :: piece) :: pieces
      | [] => [[c]]

/-- Python `str.strip()` on the ASCII token alphabet. -/
def pyStrip (s : List Char) : List Char :=
  ((s.dropWhile isPySpace).reverse.dropWhile isPySpace).reverse

/-- Python `str.lower()` on the ASCII phrase alphabet produced by the decoder
(`Char.toLower` lowercases exactly `A`–`Z`, which matches `str.lower()` on ASCII). -/
def pyLower (s : String) : String := String.mk (s.data.map Char.toLower)

/-- Python `int(value)` on the strings reachable inside `_fraction_to_float` /
`_convert_visibility_to_float`: an optional sign followed by a nonempty run of ASCII
digits parses, everything else raises `ValueError`.  (Python additionally accepts
surrounding whitespace and grouping underscores, but tokens produced by
`raw_metar.split()` contain no whitespace and METAR groups contain no underscores.) -/
def pyInt (value : Token) : Except PyErr Int :=
  match value with
  | '-' :: rest =>
    if !rest.isEmpty && rest.all Char.isDigit then Except.ok (-(natOfDigits rest : Int))
    else Except.error PyErr.valueError
  | '+' :: rest =>
    if !rest.isEmpty && rest.all Char.isDigit then Except.ok ((natOfDigits rest : Int))
    else Except.error PyErr.valueError
  | _ =>
    if !value.isEmpty && value.all Char.isDigit then Except.ok ((natOfDigits value : Int))
    else Except.error PyErr.valueError

/-- Exact value of a Python float expression, kept as an unreduced fraction with a
positive denominator.  The METAR visibility values this program computes (small
integers, halves, quarters and similar) are all exactly representable as doubles, so
the exact fraction is the value of the Python float. -/
structure PyFloat where
  num : Int
  den : Int
deriving DecidableEq, Repr

/-- The float of an integer. -/
def PyFloat.ofInt (n : Int) : PyFloat := ⟨n, 1⟩

/-- Addition of exact float values. -/
def PyFloat.add (a b : PyFloat) : PyFloat := ⟨a.num * b.den + b.num * a.den, a.den * b.den⟩

/-- Negation of an exact float value. -/
def PyFloat.neg (a : PyFloat) : PyFloat := ⟨-a.num, a.den⟩

/-- Python `n / d` on integers (true division) for `d ≠ 0`, kept exact. -/
def fracDiv (n d : Int) : PyFloat := if d < 0 then ⟨-n, -d⟩ else ⟨n, d⟩

/-- Helper for `pyFloat`: unsigned decimal forms `D+`, `D+.D*`, `.D+`. -/
def pyFloatUnsigned (v : Token) : Except PyErr PyFloat :=
  match splitOnChar '.' v with
  | [i] =>
    if !i.isEmpty && i.all Char.isDigit then Except.ok (PyFloat.ofInt (natOfDigits i))
    else Except.error PyErr.valueError
  | [i, f] =>
    if (!i.isEmpty || !f.isEmpty) && i.all Char.isDigit && f.all Char.isDigit then
      Except.ok ⟨natOfDigits i * 10 ^ f.length + natOfDigits f, 10 ^ f.length⟩
    else Except.error PyErr.valueError
  | _ => Except.error PyErr.valueError

/-- Python `float(value)` on the decimal forms a METAR visibility group can take:
optional sign and a decimal numeral with at most one point.  (Exponent, `inf` and
`nan` spellings never occur in the SM-suffixed groups this program feeds in.) -/
def pyFloat (value : Token) : Except PyErr PyFloat :=
  match value with
  | '-' :: rest => (pyFloatUnsigned rest).map PyFloat.neg
  | '+' :: rest => pyFloatUnsigned rest
  | _ => pyFloatUnsigned value

/-- Lookup table `CLOUD_COVER_MAP` of `app.py` lines 15–23, in insertion order. -/
def CLOUD_COVER_MAP : List (Token × String) :=
  [("SKC".data, "clear sky"),
   ("CLR".data, "clear sky"),
   ("CAVOK".data, "ceiling and visibility OK"),
   ("FEW".data, "few clouds"),
   ("SCT".data, "scattered clouds"),
   ("BKN".data, "broken clouds"),
   ("OVC".data, "overcast")]

/-- Lookup table `WEATHER_CODES` of `app.py` lines 25–40, in insertion order (Python
dicts iterate in insertion order, which `_extract_weather` relies on). -/
def WEATHER_CODES : List (Token × String) :=
  [("RA".data, "rain"),
   ("DZ".data, "drizzle"),
   ("SN".data, "snow"),
   ("TS".data, "thunderstorm"),
   ("BR".data, "mist"),
   ("FG".data, "fog"),
   ("HZ".data, "haze"),
   ("FU".data, "smoke"),
   ("SG".data, "snow grains"),
   ("PL".data, "ice pellets"),
   ("GR".data, "hail"),
   ("GS".data, "small hail"),
   ("SS".data, "sandstorm"),
   ("DS".data, "duststorm")]

/-- The 16-point compass table `CARDINAL_DIRECTIONS` of `app.py` lines 42–59. -/
def CARDINAL_DIRECTIONS : List String :=
  ["north",
   "north-northeast",
   "northeast",
   "east-northeast",
   "east",
   "east-southeast",
   "southeast",
   "south-southeast",
   "south",
   "south-southwest",
   "southwest",
   "west-southwest",
   "west",
   "west-northwest",
   "northwest",
   "north-northwest"]

/-- Administrative tokens skipped by `_extract_sky_conditions` (`app.py` line 127). -/
def adminTokens : List Token := ["NIL".data, "AUTO".data, "COR".data]

/-- Combinator reproducing Python's `$` anchor under `re.match` for the fully
anchored patterns of `app.py`: the pattern accepts the whole string, or the whole
string minus a single trailing newline (CPython: `$` "matches at the end of the
string or just before the newline at the end of the string").  None of the cores
below can match a string containing `'\n'`, so trying the full string first is
equivalent to the engine's search order. -/
def matchWithDollar (core : Token → Option α) (t : Token) : Option α :=
  match core t with
  | some a => some a
  | none => if t.getLast? = some '\n' then core t.dropLast else none

/-- Core of `ICAO_PATTERN = ^[A-Za-z]{4}$` (`app.py` line 10) without the `$` quirk. -/
def icaoCore (t : Token) : Option Unit :=
  if t.length = 4 && t.all isAsciiAlpha then some () else none

/-- Compiled `ICAO_PATTERN`, as used through `re.match`. -/
def ICAO_PATTERN (t : Token) : Option Unit := matchWithDollar icaoCore t

/-- Embedding of `validate_icao` (`app.py` lines 62–63):
`bool(ICAO_PATTERN.match(code))`. -/
def validate_icao (code : String) : Bool := (ICAO_PATTERN code.data).isSome

/-- Direction group of `WIND_PATTERN`: three digits or the literal `VRB`. -/
inductive WindDir where
  | vrb
  | deg (d : Nat)
deriving DecidableEq, Repr

/-- Captured groups of a `WIND_PATTERN` match, already converted by `int` where the
source converts them. -/
structure WindInfo where
  direction : WindDir
  speed : Nat
  gust : Option Nat
deriving DecidableEq, Repr

/-- Matches `(G(?P<gust>\d{2,3}))?KT$` against the entire remainder of a wind token.
The two gust widths are distinguished by total length, so the greedy order of the
regex engine cannot change the result. -/
def parseGustKT (r : List Char) : Option (Option Nat) :=
  if r = ['K', 'T'] then some none
  else
    match r with
    | 'G' :: rest =>
      if rest.length = 5 && (rest.take 3).all Char.isDigit && rest.drop 3 = ['K', 'T'] then
        some (some (natOfDigits (rest.take 3)))
      else if rest.length = 4 && (rest.take 2).all Char.isDigit && rest.drop 2 = ['K', 'T'] then
        some (some (natOfDigits (rest.take 2)))
      else none
    | _ => none

/-- Matches `(?P<speed>\d{2,3})(G(?P<gust>\d{2,3}))?KT$` against the remainder of a
wind token after the direction group: the engine first tries a three-digit speed and
backtracks to two digits, which `Option.orElse` reproduces. -/
def parseSpeedRest (r : List Char) : Option (Nat × Option Nat) :=
  (if 3 ≤ r.length && (r.take 3).all Char.isDigit then
    (parseGustKT (r.drop 3)).map (fun g => (natOfDigits (r.take 3), g))
  else none)
  <|>
  (if 2 ≤ r.length && (r.take 2).all Char.isDigit then
    (parseGustKT (r.drop 2)).map (fun g => (natOfDigits (r.take 2), g))
  else none)

/-- Core of `WIND_PATTERN = ^(\d{3}|VRB)(\d{2,3})(G(\d{2,3}))?KT$` (`app.py` line 11).
The two direction alternatives are mutually exclusive, so alternation order does not
matter. -/
def windCore (t : Token) : Option WindInfo :=
  let dir := t.take 3
  let rest := t.drop 3
  if dir.length = 3 && dir.all Char.isDigit then
    (parseSpeedRest rest).map (fun sg => ⟨WindDir.deg (natOfDigits dir), sg.1, sg.2⟩)
  else if dir = "VRB".data then
    (parseSpeedRest rest).map (fun sg => ⟨WindDir.vrb, sg.1, sg.2⟩)
  else none

/-- Compiled `WIND_PATTERN`, as used through `re.match`. -/
def WIND_PATTERN (t : Token) : Option WindInfo := matchWithDollar windCore t

/-- Matches one group `M?\d{2}` of `TEMP_PATTERN` in its entirety. -/
def tempGroupMatch (v : Token) : Bool :=
  match v with
  | ['M', a, b] => a.isDigit && b.isDigit
  | [a, b] => a.isDigit && b.isDigit
  | _ => false

/-- Core of `TEMP_PATTERN = ^(M?\d{2})/(M?\d{2})$` (`app.py` line 12), returning the
two captured group strings.  Neither group can contain `/`, so the split on `/` is
exact. -/
def tempCore (t : Token) : Option (Token × Token) :=
  match splitOnChar '/' t with
  | [g1, g2] => if tempGroupMatch g1 && tempGroupMatch g2 then some (g1, g2) else none
  | _ => none

/-- Compiled `TEMP_PATTERN`, as used through `re.match`. -/
def TEMP_PATTERN (t : Token) : Option (Token × Token) := matchWithDollar tempCore t

/-- Core of `ALTIMETER_PATTERN = ^(A|Q)(?P<value>\d{4})$` (`app.py` line 13),
returning the prefix letter and the `int` of the four-digit group. -/
def altimeterCore (t : Token) : Option (Char × Nat) :=
  match t with
  | [] => none
  | p :: rest =>
    if (p = 'A' || p = 'Q') && rest.length = 4 && rest.all Char.isDigit then
      some (p, natOfDigits rest)
    else none

/-- Compiled `ALTIMETER_PATTERN`, as used through `re.match`. -/
def ALTIMETER_PATTERN (t : Token) : Option (Char × Nat) := matchWithDollar altimeterCore t

/-- Embedding of `_decode_temperature` (`app.py` lines 162–163) on a captured
`M?\d{2}` group: `-int(value[1:]) if value.startswith("M") else int(value)`. -/
def _decode_temperature (value : Token) : Int :=
  if value.head? = some 'M' then -(natOfDigits value.tail : Int) else (natOfDigits value : Int)

/-- Sector index computed by `_degrees_to_cardinal` (`app.py` line 189):
`int((degrees % 360) / 22.5 + 0.5) % 16`, evaluated exactly.  Writing `n` for the
nonnegative `degrees % 360` (Python `%` with a positive modulus is nonnegative, as is
`Int.emod`), the real value `n / 22.5 + 0.5` equals `(4n + 45) / 90`, whose numerator
is odd and hence never divisible by 90; the exact value therefore sits at distance at
least `1/90` from every integer, while the double-precision evaluation error of
`n / 22.5 + 0.5` for `n < 360` is below `10⁻¹²`, so `int` (truncation, = floor on
nonnegative input) of the float equals the floor of the exact value,
`(4n + 45) / 90` in natural division. -/
def cardinalIndex (degrees : Int) : Nat :=
  (((degrees % 360).toNat * 4 + 45) / 90) % 16

/-- Embedding of `_degrees_to_cardinal` (`app.py` lines 188–190); the index is
in bounds by construction (`% len(CARDINAL_DIRECTIONS)` in the source). -/
def _degrees_to_cardinal (degrees : Int) : String :=
  CARDINAL_DIRECTIONS.get ⟨cardinalIndex degrees, Nat.mod_lt _ (by decide)⟩

/-- Phrase built from a `WIND_PATTERN` match by `_extract_wind` (`app.py`
lines 170–184). -/
def windPhrase (w : WindInfo) : String :=
  if w.speed = 0 then "Calm winds"
  else
    let directionPhrase :=
      match w.direction with
      | WindDir.vrb => "Variable winds"
      | WindDir.deg d => "Wind from the " ++ _degrees_to_cardinal (d : Int) ++
          " (" ++ toString d ++ "°)"
    let gustPhrase :=
      match w.gust with
      | some g => ", gusting to " ++ toString g ++ " kt"
      | none => ""
    directionPhrase ++ " at " ++ toString w.speed ++ " kt" ++ gustPhrase

/-- Embedding of `_extract_wind` (`app.py` lines 166–185): return the phrase of the
first token matching `WIND_PATTERN`, else `None`. -/
def _extract_wind : List Token → Option String
  | [] => none
  | t :: ts =>
    match WIND_PATTERN t with
    | some w => some (windPhrase w)
    | none => _extract_wind ts

/-- Embedding of `_extract_temperature` (`app.py` lines 144–150). -/
def _extract_temperature : List Token → Option String
  | [] => none
  | t :: ts =>
    match TEMP_PATTERN t with
    | some g => some ("Temperature " ++ toString (_decode_temperature g.1) ++ "°C")
    | none => _extract_temperature ts

/-- Embedding of `_extract_dew_point` (`app.py` lines 153–159). -/
def _extract_dew_point : List Token → Option String
  | [] => none
  | t :: ts =>
    match TEMP_PATTERN t with
    | some g => some ("Dew point " ++ toString (_decode_temperature g.2) ++ "°C")
    | none => _extract_dew_point ts

/-- Cloud-layer branch of the sky-condition loop (`app.py` lines 133–137): if the
first three characters are a key of `CLOUD_COVER_MAP` and `token[3:6]` is a nonempty
run of digits (Python `str.isdigit` is `False` on the empty string), report the cover
description at `int(token[3:6]) * 100` feet. -/
def cloudLayer (t : Token) : Option String :=
  let digits := (t.drop 3).take 3
  match CLOUD_COVER_MAP.lookup (t.take 3) with
  | some description =>
    if !digits.isEmpty && digits.all Char.isDigit then
      some (description ++ " at " ++ toString (natOfDigits digits * 100) ++ " ft")
    else none
  | none => none

/-- Loop of `_extract_sky_conditions` (`app.py` lines 124–141), with the mutable
`conditions` list threaded as an accumulator. -/
def skyAux (conditions : List String) : List Token → List String
  | [] => conditions
  | t :: ts =>
    if t ∈ adminTokens then skyAux conditions ts
    else if t = "CAVOK".data then skyAux (conditions ++ ["Ceiling and visibility OK"]) ts
    else
      match cloudLayer t with
      | some phrase => skyAux (conditions ++ [phrase]) ts
      | none =>
        if t = "SKC".data || t = "CLR".data then
          if "Clear sky" ∈ conditions then skyAux conditions ts
          else skyAux (conditions ++ ["Clear sky"]) ts
        else skyAux conditions ts

/-- Embedding of `_extract_sky_conditions` (`app.py` lines 124–141). -/
def _extract_sky_conditions (tokens : List Token) : List String := skyAux [] tokens

/-- Embedding of `_fraction_to_float` (`app.py` lines 218–220):
`numerator, denominator = value.split("/")` raises `ValueError` unless the split has
exactly two parts; `int(...)` may raise `ValueError`; the division raises
`ZeroDivisionError` when the denominator is zero, and is otherwise modelled exactly
as a fraction. -/
def _fraction_to_float (value : Token) : Except PyErr PyFloat :=
  match splitOnChar '/' value with
  | [numerator, denominator] => do
    let n ← pyInt numerator
    let d ← pyInt denominator
    if d = 0 then Except.error PyErr.zeroDivisionError
    else pure (fracDiv n d)
  | _ => Except.error PyErr.valueError

/-- Body of the `try` block of `_convert_visibility_to_float` (`app.py`
lines 204–213). -/
def convertVisibilityBody (token : Token) : Except PyErr PyFloat :=
  let value := token.take (token.length - 2)
  let value := if value.head? = some 'P' then value.tail else value
  if ' ' ∈ value then
    match splitOnChar ' ' value with
    | [whole, frac] => do
      let w ← pyFloat whole
      let f ← _fraction_to_float frac
      pure (w.add f)
    | _ => Except.error PyErr.valueError
  else if '/' ∈ value then _fraction_to_float value
  else pyFloat value

/-- Embedding of `_convert_visibility_to_float` (`app.py` lines 203–215): the
surrounding `except ValueError: return None` converts a `ValueError` into `None`;
any other exception (`ZeroDivisionError`) propagates. -/
def _convert_visibility_to_float (token : Token) : Except PyErr (Option PyFloat) :=
  match convertVisibilityBody token with
  | Except.ok q => Except.ok (some q)
  | Except.error PyErr.valueError => Except.ok none
  | Except.error e => Except.error e

/-- Models CPython `format(miles, "g")` for the magnitudes METAR visibility values
take (it agrees with `%g` on the integral and short decimal values the fixtures
produce: up to six significant digits, trailing zeros stripped, no exponent form).
No theorem below depends on this rendering. -/
def formatG (x : PyFloat) : String :=
  let sign := if x.num < 0 then "-" else ""
  let n := x.num.natAbs
  let d := x.den.toNat
  let intDigitCount := (toString (n / d)).length
  let decs := if 6 ≤ intDigitCount then 0 else 6 - intDigitCount
  let scaled := (n * 10 ^ decs * 2 + d) / (2 * d)
  if decs = 0 then sign ++ toString scaled
  else
    let s := toString scaled
    let s := if s.length ≤ decs then String.mk (List.replicate (decs + 1 - s.length) '0') ++ s else s
    let ip := s.data.take (s.data.length - decs)
    let fp := ((s.data.drop (s.data.length - decs)).reverse.dropWhile (fun c => c = '0')).reverse
    if fp.isEmpty then sign ++ String.mk ip
    else sign ++ String.mk ip ++ "." ++ String.mk fp

/-- Embedding of `_extract_visibility` (`app.py` lines 193–200): scan for the first
token ending in `SM`; a `None` from the converter means the token is skipped; an
exception propagates. -/
def _extract_visibility : List Token → Except PyErr (Option String)
  | [] => Except.ok none
  | t :: ts =>
    if "SM".data.isSuffixOf t then
      match _convert_visibility_to_float t with
      | Except.error e => Except.error e
      | Except.ok none => _extract_visibility ts
      | Except.ok (some miles) =>
        Except.ok (some ("Visibility " ++ formatG miles ++ " statute miles"))
    else _extract_visibility ts

/-- Embedding of `_extract_pressure` (`app.py` lines 223–236).  For an `A`-prefixed
token the source computes `round(value / 100.0 * 33.8639)`: exactly, that is
`round(value * 338639 / 10⁶)`.  The exact value is a half-integer only when
`value * 338639 ≡ 500000 (mod 10⁶)`, which forces `value ≡ 500000 (mod 10⁶)`
(`338639` is invertible modulo `10⁶`), impossible for a four-digit `value`; away from
ties the exact value is at least `10⁻⁶` from the break point while the double
evaluation error is below `10⁻⁹`, so Python's bankers' `round` of the float equals
`(value * 338639 + 500000) / 10⁶` in natural division. -/
def _extract_pressure : List Token → Option String
  | [] => none
  | t :: ts =>
    match ALTIMETER_PATTERN t with
    | none => _extract_pressure ts
    | some pv =>
      if pv.1 = 'A' then
        some ("Pressure " ++ toString ((pv.2 * 338639 + 500000) / 1000000) ++ " hPa")
      else if pv.1 = 'Q' then
        some ("Pressure " ++ toString pv.2 ++ " hPa")
      else _extract_pressure ts

/-- Embedding of `_decode_intensity` (`app.py` lines 254–261). -/
def _decode_intensity (modifier : Token) : String :=
  if modifier = "-".data then "Light "
  else if modifier = "+".data then "Heavy "
  else if modifier = "VC".data then "In the vicinity: "
  else ""

/-- Inner loop of `_extract_weather` (`app.py` lines 241–247): the first weather code
(in table order) that is a suffix of the token wins; the part of the token before the
code is decoded as an intensity marker. -/
def weatherForToken (t : Token) : Option String :=
  (WEATHER_CODES.find? (fun cd => cd.1.isSuffixOf t)).map
    (fun cd => _decode_intensity (t.take (t.length - cd.1.length)) ++ cd.2)

/-- Python `item.replace("  ", " ")`: collapse non-overlapping double spaces, left to
right. -/
def replaceDoubleSpace : List Char → List Char
  | ' ' :: ' ' :: rest => ' ' :: replaceDoubleSpace rest
  | c :: rest => c :: replaceDoubleSpace rest
  | [] => []

/-- Embedding of `_extract_weather` (`app.py` lines 239–251). -/
def _extract_weather (tokens : List Token) : Option String :=
  let phenomena := tokens.filterMap weatherForToken
  if phenomena.isEmpty then none
  else
    let cleaned := phenomena.map (fun item => String.mk (pyStrip (replaceDoubleSpace item.data)))
    some ("Weather: " ++ String.intercalate ", " cleaned)

/-- Loop of `_deduplicate_preserve_order` (`app.py` lines 264–272); the Python `seen`
set of lowercased keys is modelled as a list with membership. -/
def dedupAux (seen : List String) : List String → List String
  | [] => []
  | item :: items =>
    if pyLower item ∈ seen then dedupAux seen items
    else item :: dedupAux (pyLower item :: seen) items

/-- Embedding of `_deduplicate_preserve_order` (`app.py` lines 264–272). -/
def _deduplicate_preserve_order (items : List String) : List String := dedupAux [] items

/-- Embedding of `parse_metar` (`app.py` lines 86–121).  The matchers run in the
fixed source order; `_extract_visibility` is the only one that can raise. -/
def parse_metar (raw_metar : String) : Except PyErr String :=
  if raw_metar.data.isEmpty then Except.ok "Unable to parse METAR report."
  else
    let tokens := pySplit raw_metar.data
    let phrases := _extract_sky_conditions tokens
    let phrases := phrases ++ (_extract_temperature tokens).toList
    let phrases := phrases ++ (_extract_dew_point tokens).toList
    let phrases := phrases ++ (_extract_wind tokens).toList
    match _extract_visibility tokens with
    | Except.error e => Except.error e
    | Except.ok visibility =>
      let phrases := phrases ++ visibility.toList
      let phrases := phrases ++ (_extract_pressure tokens).toList
      let phrases := phrases ++ (_extract_weather tokens).toList
      Except.ok (if phrases.isEmpty then "Unable to parse METAR report."
                 else String.intercalate ", " (_deduplicate_preserve_order phrases))

/-- Claim-side characterization of the deduplication (C4): keep each phrase, drop
later phrases whose lowercase text equals a kept one, so the first occurrence wins
and relative order is preserved. -/
def firstWins : List String → List String
  | [] => []
  | x :: xs => x :: firstWins (xs.filter (fun y => pyLower y != pyLower x))
  termination_by l => l.length
  decreasing_by
    simp only [List.length_cons]
    exact Nat.lt_succ_of_le (List.length_filter_le _ _)

/-- Claim-side gust suffix (C6): appended only when a gust group is present. -/
def gustSuffix : Option Nat → String
  | some g => ", gusting to " ++ toString g ++ " kt"
  | none => ""

/-- Claim-side matcher (C8): a token that is literally `A` or `Q` followed by
exactly four digits, with the prefix letter and captured value. -/
def fourDigitAltimeter (t : Token) : Option (Char × Nat) :=
  match t with
  | [] => none
  | p :: ds =>
    if (p = 'A' || p = 'Q') && ds.length = 4 && ds.all Char.isDigit then
      some (p, natOfDigits ds)
    else none

/-- Claim-side phrase (C8): for `A`-prefixed tokens, hectopascals are
`round((value / 100) * 33.8639)`; for `Q`-prefixed tokens the value is reported
directly. -/
def pressureSpecPhrase (pv : Char × Nat) : String :=
  if pv.1 = 'A' then
    "Pressure " ++ toString (round ((pv.2 : ℚ) / 100 * (33.8639 : ℚ))) ++ " hPa"
  else "Pressure " ++ toString pv.2 ++ " hPa"

/-- C1: the specification claims `parse_metar` never raises — every SM-suffixed
token whose numeric part does not parse is silently skipped.  The code violates
this: for the report `"1/0SM"` the fraction helper divides by zero and
`_convert_visibility_to_float` catches only `ValueError`, so the
`ZeroDivisionError` escapes `parse_metar` instead of the token being skipped. -/
theorem c1_zero_denominator_escapes :
    parse_metar "1/0SM" = Except.error PyErr.zeroDivisionError := rfl

/-- C9: the degree-to-cardinal helper is total over every integer, negative and
large bearings included: the composed `% 360` and `% 16` keep the sector index
within the 16-entry table, so lookup never goes out of bounds and the result is
always one of the table's names. -/
theorem c9_cardinal_total (degrees : Int) :
    cardinalIndex degrees < CARDINAL_DIRECTIONS.length
    ∧ (CARDINAL_DIRECTIONS.get? (cardinalIndex degrees)).isSome = true
    ∧ _degrees_to_cardinal degrees ∈ CARDINAL_DIRECTIONS := by
  have h16 : cardinalIndex degrees < 16 := Nat.mod_lt _ (by norm_num)
  have hlen : cardinalIndex degrees < CARDINAL_DIRECTIONS.length := h16
  refine ⟨hlen, ?_, ?_⟩
  · rw [List.get?_eq_get hlen]
    rfl
  · exact List.get_mem _ _ _

/-- C10: the temperature and dew-point matchers both decode the first token
matching the shared `TEMP_PATTERN`, so one returns a phrase exactly when the other
does, and both phrases come from that same token. -/
theorem c10_temp_dew_paired (tokens : List Token) :
    _extract_temperature tokens
      = (tokens.findSome? TEMP_PATTERN).map
          (fun g => "Temperature " ++ toString (_decode_temperature g.1) ++ "°C")
    ∧ _extract_dew_point tokens
      = (tokens.findSome? TEMP_PATTERN).map
          (fun g => "Dew point " ++ toString (_decode_temperature g.2) ++ "°C")
    ∧ ((_extract_temperature tokens).isSome ↔ (_extract_dew_point tokens).isSome) := by
  have htemp : _extract_temperature tokens
      = (tokens.findSome? TEMP_PATTERN).map
          (fun g => "Temperature " ++ toString (_decode_temperature g.1) ++ "°C") := by
    induction tokens with
    | nil => rfl
    | cons t ts ih =>
      rw [_extract_temperature, List.findSome?_cons]
      cases TEMP_PATTERN t with
      | some g => rfl
      | none => exact ih
  have hdew : _extract_dew_point tokens
      = (tokens.findSome? TEMP_PATTERN).map
          (fun g => "Dew point " ++ toString (_decode_temperature g.2) ++ "°C") := by
    clear htemp
    induction tokens with
    | nil => rfl
    | cons t ts ih =>
      rw [_extract_dew_point, List.findSome?_cons]
      cases TEMP_PATTERN t with
      | some g => rfl
      | none => exact ih
  refine ⟨htemp, hdew, ?_⟩
  rw [htemp, hdew]
  cases tokens.findSome? TEMP_PATTERN <;> simp

/-- C6: the wind matcher uses only the first token matching `WIND_PATTERN`; a zero
speed yields "Calm winds" regardless of direction and gust; a `VRB` direction
yields the variable-wind phrase; otherwise the cardinal-name phrase is produced;
in each non-calm case the gust suffix is appended exactly when a gust group is
present. -/
theorem c6_wind_first_match_phrases :
    (∀ tokens : List Token,
        _extract_wind tokens = (tokens.findSome? WIND_PATTERN).map windPhrase)
    ∧ (∀ w : WindInfo, w.speed = 0 → windPhrase w = "Calm winds")
    ∧ (∀ sp g, sp ≠ 0 →
        windPhrase ⟨WindDir.vrb, sp, g⟩
          = "Variable winds" ++ " at " ++ toString sp ++ " kt" ++ gustSuffix g)
    ∧ (∀ d sp g, sp ≠ 0 →
        windPhrase ⟨WindDir.deg d, sp, g⟩
          = "Wind from the " ++ _degrees_to_cardinal (d : Int) ++ " (" ++ toString d
              ++ "°)" ++ " at " ++ toString sp ++ " kt" ++ gustSuffix g)
    ∧ gustSuffix none = ""
    ∧ (∀ g, gustSuffix (some g) = ", gusting to " ++ toString g ++ " kt") := by
  refine ⟨?_, ?_, ?_, ?_, rfl, fun g => rfl⟩
  · intro tokens
    induction tokens with
    | nil => rfl
    | cons t ts ih =>
      rw [_extract_wind, List.findSome?_cons]
      cases WIND_PATTERN t with
      | some w => rfl
      | none => exact ih
  · intro w h
    rw [windPhrase, if_pos h]
  · intro sp g h
    rw [windPhrase, if_neg h]
    cases g <;> rfl
  · intro d sp g h
    rw [windPhrase, if_neg h]
    cases g <;> rfl

/-- Witness for C6 at concrete inputs. -/
theorem c6_wind_first_match_phrases_witness :
    _extract_wind ["18015G25KT".data]
      = (["18015G25KT".data].findSome? WIND_PATTERN).map windPhrase
    ∧ windPhrase ⟨WindDir.vrb, 0, none⟩ = "Calm winds"
    ∧ windPhrase ⟨WindDir.vrb, 3, none⟩
        = "Variable winds" ++ " at " ++ toString 3 ++ " kt" ++ gustSuffix none
    ∧ windPhrase ⟨WindDir.deg 180, 15, some 25⟩
        = "Wind from the " ++ _degrees_to_cardinal ((180 : Nat) : Int) ++ " (" ++ toString 180
            ++ "°)" ++ " at " ++ toString 15 ++ " kt" ++ gustSuffix (some 25) :=
  ⟨c6_wind_first_match_phrases.1 ["18015G25KT".data],
   c6_wind_first_match_phrases.2.1 ⟨WindDir.vrb, 0, none⟩ rfl,
   c6_wind_first_match_phrases.2.2.1 3 none (by decide),
   c6_wind_first_match_phrases.2.2.2.1 180 15 (some 25) (by decide)⟩

/-- Splitting a string of whitespace only yields no tokens, whatever has been
accumulated so far is the only candidate. -/
theorem pySplitAux_all_space (s : List Char) (h : s.all isPySpace = true) :
    pySplitAux s [] = [] := by
  induction s with
  | nil => rfl
  | cons c cs ih =>
    rw [List.all_cons, Bool.and_eq_true] at h
    rw [pySplitAux, if_pos h.1]
    simpa using ih h.2

/-- C2: `parse_metar` returns exactly the sentinel string for empty and
whitespace-only input, and for any input none of whose tokens yields a phrase from
any matcher — in particular for the single-token report `"KJFK"`. -/
theorem c2_sentinel_cases :
    (∀ s : String, s.data.all isPySpace = true →
        parse_metar s = Except.ok "Unable to parse METAR report.")
    ∧ (∀ s : String,
        _extract_sky_conditions (pySplit s.data) = [] →
        _extract_temperature (pySplit s.data) = none →
        _extract_dew_point (pySplit s.data) = none →
        _extract_wind (pySplit s.data) = none →
        _extract_visibility (pySplit s.data) = Except.ok none →
        _extract_pressure (pySplit s.data) = none →
        _extract_weather (pySplit s.data) = none →
        parse_metar s = Except.ok "Unable to parse METAR report.")
    ∧ parse_metar "KJFK" = Except.ok "Unable to parse METAR report." := by
  refine ⟨?_, ?_, rfl⟩
  · intro s hs
    unfold parse_metar
    by_cases h : s.data.isEmpty
    · rw [if_pos h]
    · rw [if_neg h]
      have hsplit : pySplit s.data = [] := pySplitAux_all_space s.data hs
      rw [hsplit]
      rfl
  · intro s hsky htemp hdew hwind hvis hpres hweather
    unfold parse_metar
    by_cases h : s.data.isEmpty
    · rw [if_pos h]
    · rw [if_neg h]
      simp only [hsky, htemp, hdew, hwind, hvis, hpres, hweather]
      rfl

/-- Witness for C2 at concrete inputs. -/
theorem c2_sentinel_cases_witness :
    parse_metar " \t " = Except.ok "Unable to parse METAR report."
    ∧ parse_metar "KJFK 051651Z" = Except.ok "Unable to parse METAR report." :=
  ⟨c2_sentinel_cases.1 " \t " (by decide),
   c2_sentinel_cases.2.1 "KJFK 051651Z" rfl rfl rfl rfl rfl rfl rfl⟩

/-- Loop invariant of the deduplication: with `seen` keys already recorded, the loop
behaves like the claim-side `firstWins` on the sublist of items whose key is new. -/
theorem dedupAux_eq_firstWins (l : List String) :
    ∀ seen : List String,
      dedupAux seen l = firstWins (l.filter (fun y => !decide (pyLower y ∈ seen))) := by
  induction l with
  | nil => intro seen; simp [dedupAux, firstWins]
  | cons x xs ih =>
    intro seen
    rw [dedupAux]
    by_cases h : pyLower x ∈ seen
    · rw [if_pos h]
      have hx : (!decide (pyLower x ∈ seen)) = false := by simp [h]
      rw [List.filter_cons, hx, if_neg Bool.false_ne_true]
      exact ih seen
    · rw [if_neg h]
      have hx : (!decide (pyLower x ∈ seen)) = true := by simp [h]
      rw [List.filter_cons, hx, if_pos rfl, firstWins]
      congr 1
      rw [ih (pyLower x :: seen), List.filter_filter]
      congr 1
      refine List.filter_congr ?_
      intro y hy
      by_cases h1 : pyLower y = pyLower x <;> by_cases h2 : pyLower y ∈ seen <;>
        simp [h1, h2, List.mem_cons]

/-- The deduplication only drops items: its result is a sublist of the input. -/
theorem dedupAux_sublist (l : List String) :
    ∀ seen, (dedupAux seen l).Sublist l := by
  induction l with
  | nil => intro _; exact List.Sublist.refl _
  | cons x xs ih =>
    intro seen
    rw [dedupAux]
    by_cases h : pyLower x ∈ seen
    · rw [if_pos h]
      exact (ih seen).trans (List.sublist_cons_self _ _)
    · rw [if_neg h]
      exact (ih _).cons₂ x

/-- C4: the assembler's deduplication keeps the first occurrence of each phrase
under lowercase comparison, drops every later phrase whose lowercase text has
already appeared, and preserves the relative order of the kept phrases; two
phrases identical except for case yield only the first rendering. -/
theorem c4_dedup_first_occurrence :
    (∀ items : List String, _deduplicate_preserve_order items = firstWins items)
    ∧ (∀ items : List String, (_deduplicate_preserve_order items).Sublist items)
    ∧ _deduplicate_preserve_order ["Clear sky", "mist", "CLEAR SKY"]
        = ["Clear sky", "mist"] := by
  refine ⟨?_, fun items => dedupAux_sublist items [], rfl⟩
  intro items
  rw [_deduplicate_preserve_order, dedupAux_eq_firstWins]
  congr 1
  exact List.filter_eq_self.2 (fun a _ => by simp)

/-- Exact value of the claim's `round(bearing / 22.5)`: rounding half up, it is the
natural-division expression `(4·b + 45) / 90`. -/
theorem round_div_225 (b : Nat) :
    ((((b * 4 + 45) / 90 : Nat) : ℤ)) = round ((b : ℚ) / 22.5) := by
  have h : (b : ℚ) / 22.5 + 1 / 2 = (((b * 4 + 45 : ℕ) : ℤ) : ℚ) / ((90 : ℕ) : ℚ) := by
    push_cast
    norm_num
    ring
  rw [round_eq, h, Rat.floor_intCast_div_natCast]
  push_cast [Int.ofNat_tdiv]
  norm_num

/-- Reducing the bearing modulo 360 before the sector computation does not change
the sector index modulo 16, because 360 degrees are exactly 16 sectors. -/
theorem cardinalIndex_mod_eq (b : Nat) :
    ((b % 360) * 4 + 45) / 90 % 16 = (b * 4 + 45) / 90 % 16 := by
  conv_rhs => rw [show b = b % 360 + 360 * (b / 360) from (Nat.mod_add_div b 360).symm]
  have h : (b % 360 + 360 * (b / 360)) * 4 + 45
      = (b % 360 * 4 + 45) + 90 * (16 * (b / 360)) := by ring
  rw [h, Nat.add_mul_div_left _ _ (by norm_num), Nat.add_mul_mod_self_left]

/-- The sector index of a nonnegative bearing, written without the integer cast. -/
theorem cardinalIndex_natCast (b : Nat) :
    cardinalIndex (b : Int) = ((b % 360) * 4 + 45) / 90 % 16 := by
  have h1 : ((b : Int) % 360) = ((b % 360 : ℕ) : ℤ) := by push_cast; ring
  rw [cardinalIndex, h1, Int.toNat_natCast]

/-- C5: the degree-to-cardinal helper computes sector index
`round(bearing / 22.5) mod 16` (ties rounding up, toward the next sector) into the
16-name table; every bearing in 354–360 and 0–5 maps to "north", 180 to "south"
and 270 to "west". -/
theorem c5_cardinal_sectors :
    (∀ b : Nat, cardinalIndex (b : Int) = (round ((b : ℚ) / 22.5)).toNat % 16)
    ∧ (∀ b : Nat, 354 ≤ b → b ≤ 360 → _degrees_to_cardinal (b : Int) = "north")
    ∧ (∀ b : Nat, b ≤ 5 → _degrees_to_cardinal (b : Int) = "north")
    ∧ _degrees_to_cardinal 180 = "south"
    ∧ _degrees_to_cardinal 270 = "west" := by
  refine ⟨?_, ?_, ?_, by decide, by decide⟩
  · intro b
    rw [cardinalIndex_natCast, cardinalIndex_mod_eq, ← round_div_225, Int.toNat_natCast]
  · intro b h1 h2
    interval_cases b <;> decide
  · intro b h2
    interval_cases b <;> decide

/-- Witness for C5 at concrete bearings. -/
theorem c5_cardinal_sectors_witness :
    _degrees_to_cardinal ((360 : Nat) : Int) = "north"
    ∧ _degrees_to_cardinal ((3 : Nat) : Int) = "north" :=
  ⟨c5_cardinal_sectors.2.1 360 (by norm_num) (by norm_num),
   c5_cardinal_sectors.2.2.1 3 (by norm_num)⟩

/-- C7: for every non-administrative, non-CAVOK token the sky matcher emits a
cloud-layer phrase exactly when the first three characters are a known cover code
and characters 4–6 are a nonempty run of digits, with height `digits × 100`; a
CAVOK token appends "Ceiling and visibility OK" and the scan continues. -/
theorem c7_sky_conditions :
    (∀ t : Token, t ∉ adminTokens → t ≠ "CAVOK".data →
        ((cloudLayer t).isSome = true ↔
          (CLOUD_COVER_MAP.lookup (t.take 3)).isSome = true
          ∧ ((t.drop 3).take 3).isEmpty = false
          ∧ ((t.drop 3).take 3).all Char.isDigit = true))
    ∧ (∀ t desc, CLOUD_COVER_MAP.lookup (t.take 3) = some desc →
        ((t.drop 3).take 3).isEmpty = false →
        ((t.drop 3).take 3).all Char.isDigit = true →
        cloudLayer t
          = some (desc ++ " at " ++ toString (natOfDigits ((t.drop 3).take 3) * 100) ++ " ft"))
    ∧ (∀ conditions ts, skyAux conditions ("CAVOK".data :: ts)
        = skyAux (conditions ++ ["Ceiling and visibility OK"]) ts)
    ∧ (∀ conditions t ts phrase, t ∉ adminTokens → t ≠ "CAVOK".data →
        cloudLayer t = some phrase →
        skyAux conditions (t :: ts) = skyAux (conditions ++ [phrase]) ts) := by
  refine ⟨?_, ?_, ?_, ?_⟩
  · intro t _ _
    cases hl : CLOUD_COVER_MAP.lookup (t.take 3) with
    | none => simp [cloudLayer, hl]
    | some desc =>
      by_cases he : ((t.drop 3).take 3).isEmpty
      · simp [cloudLayer, hl, he]
      · by_cases hd : ((t.drop 3).take 3).all Char.isDigit
        · simp [cloudLayer, hl, he, hd]
        · simp [cloudLayer, hl, he, hd]
  · intro t desc hl he hd
    simp [cloudLayer, hl, he, hd]
  · intro conditions ts
    rw [skyAux, if_neg (by decide), if_pos rfl]
  · intro conditions t ts phrase ha hc hcl
    rw [skyAux, if_neg ha, if_neg hc, hcl]

/-- Witness for C7 at concrete tokens. -/
theorem c7_sky_conditions_witness :
    cloudLayer "FEW025".data
      = some ("few clouds" ++ " at "
          ++ toString (natOfDigits (("FEW025".data.drop 3).take 3) * 100) ++ " ft")
    ∧ skyAux [] ["CAVOK".data] = skyAux ([] ++ ["Ceiling and visibility OK"]) []
    ∧ ((cloudLayer "FEW025".data).isSome = true ↔
        (CLOUD_COVER_MAP.lookup ("FEW025".data.take 3)).isSome = true
        ∧ (("FEW025".data.drop 3).take 3).isEmpty = false
        ∧ (("FEW025".data.drop 3).take 3).all Char.isDigit = true) :=
  ⟨c7_sky_conditions.2.1 "FEW025".data "few clouds" rfl rfl rfl,
   c7_sky_conditions.2.2.1 [] [],
   c7_sky_conditions.1 "FEW025".data (by decide) (by decide)⟩

/-- Membership of the last element. -/
theorem mem_of_getLast?_eq_some (l : List Char) (a : Char) (h : l.getLast? = some a) :
    a ∈ l := by
  induction l with
  | nil => simp [List.getLast?] at h
  | cons x xs ih =>
    cases xs with
    | nil =>
      simp [List.getLast?] at h
      simp [h]
    | cons y ys =>
      rw [List.getLast?_cons_cons] at h
      exact List.mem_cons_of_mem x (ih h)

/-- Exact value of the pressure conversion: Python's
`round(value / 100.0 * 33.8639)` equals `(value * 338639 + 500000) / 10⁶` in
natural division (the exact product is never a half-integer for `value < 10⁶`, see
the comment on `_extract_pressure`). -/
theorem round_pressure (v : Nat) :
    (((v * 338639 + 500000) / 1000000 : Nat) : ℤ) = round ((v : ℚ) / 100 * 33.8639) := by
  have h : (v : ℚ) / 100 * 33.8639 + 1 / 2
      = (((v * 338639 + 500000 : ℕ) : ℤ) : ℚ) / ((1000000 : ℕ) : ℚ) := by
    push_cast
    norm_num
    ring
  rw [round_eq, h, Rat.floor_intCast_div_natCast]
  push_cast [Int.ofNat_tdiv]
  norm_num

/-- The spec-side four-digit altimeter matcher coincides with the compiled core. -/
theorem fourDigitAltimeter_eq_core (t : Token) : fourDigitAltimeter t = altimeterCore t := by
  cases t <;> rfl

/-- On tokens free of newlines — every token `raw_metar.split()` can produce — the
compiled altimeter pattern is exactly the spec-side matcher. -/
theorem altimeter_no_newline (t : Token) (h : '\n' ∉ t) :
    ALTIMETER_PATTERN t = fourDigitAltimeter t := by
  rw [ALTIMETER_PATTERN, matchWithDollar, fourDigitAltimeter_eq_core]
  cases hc : altimeterCore t with
  | some a => rfl
  | none =>
    rw [if_neg]
    intro hlast
    exact h (mem_of_getLast?_eq_some t '\n' hlast)

/-- A successful four-digit altimeter match starts with `A` or `Q`. -/
theorem fourDigitAltimeter_head (t : Token) (pv : Char × Nat)
    (h : fourDigitAltimeter t = some pv) : pv.1 = 'A' ∨ pv.1 = 'Q' := by
  cases t with
  | nil => simp [fourDigitAltimeter] at h
  | cons p ds =>
    rw [fourDigitAltimeter] at h
    by_cases hc : ((p = 'A' || p = 'Q') && ds.length = 4 && ds.all Char.isDigit) = true
    · rw [if_pos hc] at h
      injection h with h1
      rw [← h1]
      simp only [Bool.and_eq_true, Bool.or_eq_true, decide_eq_true_eq] at hc
      exact hc.1.1
    · rw [if_neg hc] at h
      exact absurd h (by simp)

/-- C8: on every token list (tokens are whitespace-free by construction of
`raw_metar.split()`), the pressure matcher uses only the first token that is `A` or
`Q` followed by exactly four digits; an `A`-prefixed value is converted by
`round((value / 100) * 33.8639)` and a `Q`-prefixed value is reported directly; in
particular `A2992` yields "Pressure 1013 hPa". -/
theorem c8_pressure_first_match :
    (∀ tokens : List Token, (∀ t ∈ tokens, '\n' ∉ t) →
        _extract_pressure tokens
          = (tokens.findSome? fourDigitAltimeter).map pressureSpecPhrase)
    ∧ (∀ v : Nat,
        pressureSpecPhrase ('A', v)
          = "Pressure " ++ toString (round ((v : ℚ) / 100 * (33.8639 : ℚ))) ++ " hPa")
    ∧ (∀ v : Nat, pressureSpecPhrase ('Q', v) = "Pressure " ++ toString v ++ " hPa")
    ∧ _extract_pressure ["A2992".data] = some "Pressure 1013 hPa" := by
  refine ⟨?_, fun v => rfl, fun v => by simp [pressureSpecPhrase], rfl⟩
  intro tokens h
  induction tokens with
  | nil => rfl
  | cons t ts ih =>
    have ht : '\n' ∉ t := h t (List.mem_cons_self t ts)
    have hts : ∀ u ∈ ts, '\n' ∉ u := fun u hu => h u (List.mem_cons_of_mem t hu)
    rw [_extract_pressure, List.findSome?_cons, altimeter_no_newline t ht]
    cases hfd : fourDigitAltimeter t with
    | none => exact ih hts
    | some pv =>
      dsimp only [Option.map]
      cases fourDigitAltimeter_head t pv hfd with
      | inl hA =>
        rw [if_pos hA, pressureSpecPhrase, if_pos hA, ← round_pressure]
        rfl
      | inr hQ =>
        by_cases hA : pv.1 = 'A'
        · rw [if_pos hA, pressureSpecPhrase, if_pos hA, ← round_pressure]
          rfl
        · rw [if_neg hA, if_pos hQ, pressureSpecPhrase, if_neg hA]

/-- Witness for C8 at a concrete token list. -/
theorem c8_pressure_first_match_witness :
    _extract_pressure ["A2992".data]
      = (["A2992".data].findSome? fourDigitAltimeter).map pressureSpecPhrase :=
  c8_pressure_first_match.1 ["A2992".data] (by decide)

/-- Characterization of the `[A-Za-z]{4}` core: it accepts exactly the strings of
four ASCII letters. -/
theorem icaoCore_isSome (t : Token) :
    (icaoCore t).isSome = true ↔ (t.length = 4 ∧ ∀ c ∈ t, isAsciiAlpha c = true) := by
  rw [icaoCore]
  by_cases h : (t.length = 4 && t.all isAsciiAlpha) = true
  · rw [if_pos h]
    simp only [Option.isSome_some, true_iff]
    simpa [List.all_eq_true] using h
  · rw [if_neg h]
    constructor
    · intro hch
      exact absurd hch (by simp)
    · intro hc
      refine absurd (show (decide (t.length = 4) && t.all isAsciiAlpha) = true by
        simp only [List.all_eq_true, Bool.and_eq_true, decide_eq_true_eq]
        exact hc) h

/-- C3 counterexample: the claim says `validate_icao` returns false for every
string whose length is not 4 or which contains a non-letter; yet the
five-character string `"ABCD\n"` (trailing newline) validates, because Python's
`$` anchor also matches just before a trailing newline. -/
theorem c3_counterexample :
    validate_icao "ABCD\n" = true ∧ "ABCD\n".data.length ≠ 4 :=
  ⟨by decide, by decide⟩

/-- C3 amended: `validate_icao` returns true exactly for strings of four ASCII
letters of any case, optionally followed by one trailing newline — in particular
true for every 4-letter alphabetic string — and false for every other string. -/
theorem c3_amended (s : String) :
    validate_icao s = true ↔
      ((s.data.length = 4 ∧ ∀ c ∈ s.data, isAsciiAlpha c = true)
        ∨ (s.data.length = 5 ∧ s.data.getLast? = some '\n'
            ∧ ∀ c ∈ s.data.take 4, isAsciiAlpha c = true)) := by
  rw [validate_icao, ICAO_PATTERN, matchWithDollar]
  cases hc : icaoCore s.data with
  | some a =>
    exact ⟨fun _ => Or.inl ((icaoCore_isSome s.data).1 (by rw [hc]; rfl)), fun _ => rfl⟩
  | none =>
    have hfirst : ¬ (s.data.length = 4 ∧ ∀ c ∈ s.data, isAsciiAlpha c = true) := by
      intro hgood
      have hs := (icaoCore_isSome s.data).2 hgood
      rw [hc] at hs
      simp at hs
    by_cases hl : s.data.getLast? = some '\n'
    · rw [if_pos hl]
      have hne : s.data ≠ [] := by
        intro he
        rw [he] at hl
        simp at hl
      have hlen : s.data.dropLast.length = s.data.length - 1 := List.length_dropLast s.data
      have hpos : 0 < s.data.length := List.length_pos.2 hne
      rw [icaoCore_isSome]
      constructor
      · rintro ⟨h4, halpha⟩
        have h5 : s.data.length = 5 := by omega
        refine Or.inr ⟨h5, hl, ?_⟩
        intro c hcmem
        apply halpha
        rw [List.dropLast_eq_take, h5]
        exact hcmem
      · rintro (hgood | ⟨h5, _, htake⟩)
        · exact absurd hgood hfirst
        · refine ⟨by omega, ?_⟩
          intro c hcmem
          apply htake
          rw [List.dropLast_eq_take, h5] at hcmem
          exact hcmem
    · rw [if_neg hl]
      refine ⟨fun h => absurd h (by simp), ?_⟩
      rintro (hgood | ⟨_, hl2, _⟩)
      · exact absurd hgood hfirst
      · exact absurd hl2 hl
